import Mathlib

/-
Verification of the pysource layer (utils.py, geom_utils.py, interface.py):
a shallow embedding of its pure computations and argument plumbing,
with machine integers and floats modelled as exact rationals or reals.
-/

namespace JUDIGeosym

/-! ## utils.compute_optalpha -/

/-- Embedding of utils.compute_optalpha (utils.py lines 61-82): optimal WRI
step length, returning 1 when comp_alpha is off and a zero fallback in the
degenerate cases. -/
def compute_optalpha (norm_r norm_Fty epsilon : ℚ) (comp_alpha : Bool) : ℚ :=
  if comp_alpha then
    if norm_r > epsilon ∧ norm_Fty > 0 then
      norm_r * (norm_r - epsilon) / norm_Fty
    else 0
  else 1

/-! ## utils.C_Matrix, vp-vs-rho parameterization

`C_Matrix._matrix_init dim` builds a symmetric matrix of size
`d = 2*dim + dim - 2` minus one, i.e. 3x3 in 2-D and 6x6 in 3-D, whose
entry (i, j) is the symbol C(min i j)(max i j) when `min = max` or both
indices lie within the first `dim` rows, and 0 otherwise.  The factory
then substitutes closed forms for the symbols.  We embed the substituted
matrices directly, as functions of the physical parameters (exact
rationals stand in for the symbolic field values; evaluation at a point
is a ring homomorphism, so any identity failing at a point fails
symbolically). -/

/-- Embedding of C_Matrix.C_vp_vs_rho for a 2-D model (utils.py lines
257-288, subs2D branch): C11 = C22 = rho vp^2, C33 = rho vs^2,
C12 = rho vp^2 - 2 rho vs^2, with rho = 1/irho. -/
def C_vp_vs_rho_2D (vp vs irho : ℚ) : Matrix (Fin 3) (Fin 3) ℚ :=
  let rho := 1 / irho
  Matrix.of ![![rho*vp*vp, rho*vp*vp - 2*rho*vs*vs, 0],
              ![rho*vp*vp - 2*rho*vs*vs, rho*vp*vp, 0],
              ![0, 0, rho*vs*vs]]

/-- Embedding of C_Matrix._inverse_C_vp_vs for a 2-D model (utils.py lines
290-315, subs2D branch): the attached `.inv` attribute. -/
def inverse_C_vp_vs_2D (vp vs irho : ℚ) : Matrix (Fin 3) (Fin 3) ℚ :=
  let rho := 1 / irho
  let dg := (vp*vp - vs*vs) / ((rho*vs*vs) * (3*vp*vp - 4*vs*vs))
  let off := (vp*vp - vs*vs) / ((rho*vs*vs) * (6*vp*vp - 8*vs*vs))
  Matrix.of ![![dg, off, 0],
              ![off, dg, 0],
              ![0, 0, 1/(rho*vs*vs)]]

/-- Embedding of C_Matrix.C_vp_vs_rho for a 3-D model (utils.py lines
257-288, subs3D branch). -/
def C_vp_vs_rho_3D (vp vs irho : ℚ) : Matrix (Fin 6) (Fin 6) ℚ :=
  let rho := 1 / irho
  let a := rho*vp*vp
  let b := rho*vs*vs
  let c := rho*vp*vp - 2*rho*vs*vs
  Matrix.of ![![a, c, c, 0, 0, 0],
              ![c, a, c, 0, 0, 0],
              ![c, c, a, 0, 0, 0],
              ![0, 0, 0, b, 0, 0],
              ![0, 0, 0, 0, b, 0],
              ![0, 0, 0, 0, 0, b]]

/-- Embedding of C_Matrix._inverse_C_vp_vs for a 3-D model (utils.py lines
290-315, subs3D branch): the attached `.inv` attribute. -/
def inverse_C_vp_vs_3D (vp vs irho : ℚ) : Matrix (Fin 6) (Fin 6) ℚ :=
  let rho := 1 / irho
  let dg := (vp*vp - vs*vs) / ((rho*vs*vs) * (3*vp*vp - 4*vs*vs))
  let off := (vp*vp - vs*vs) / ((rho*vs*vs) * (6*vp*vp - 8*vs*vs))
  let sh := 1 / (rho*vs*vs)
  Matrix.of ![![dg, off, off, 0, 0, 0],
              ![off, dg, off, 0, 0, 0],
              ![off, off, dg, 0, 0, 0],
              ![0, 0, 0, sh, 0, 0],
              ![0, 0, 0, 0, sh, 0],
              ![0, 0, 0, 0, 0, sh]]

/-! ## geom_utils.src_rec and geom_utils.geom_expr

Devito point sets and fields are external collaborators; we model them by
their observed call contract: a PointSource or Receiver is a named,
time-sampled point set, `inject` contributes one update equation per call
and `interpolate` one read-out equation per call.  Devito names are
strings built as "src"/"rcv" plus a field-name tag; we model the tags as
naturals and the built names as an inductive, which keeps exactly the
distinguishing power the code has. -/

/-- Errors raised by the geometry builder: the bare `raise Exception` of
the elastic receiver branch (the error the spec calls InvalidInput), and
the AttributeError from evaluating `wavelet.shape[0]` on None. -/
inductive GErr where
  | invalidInput
  | attributeError
deriving DecidableEq

/-- The slice of the physical model geom_utils reads: the is_elastic and
is_tti regime flags and the grid dimension (model.dim = model.grid.dim). -/
structure GModel where
  isElastic : Bool
  isTTI : Bool
  dim : ℕ

/-- A devito point-set name: "src" or "rcv" plus the resolved field tag,
or one of the fixed elastic receiver names rec_vx / rec_vz / rec_vy. -/
inductive PtName where
  | srcOf (tag : ℕ)
  | rcvOf (tag : ℕ)
  | recVX
  | recVZ
  | recVY
deriving DecidableEq

/-- A PointSource: name, time length, coordinates and data buffer. -/
structure PSrc where
  name : PtName
  ntime : ℕ
  coords : List ℚ
  data : List ℚ
deriving DecidableEq

/-- A Receiver point set: name, time length and coordinates. -/
structure PRcv where
  name : PtName
  ntime : ℕ
  coords : List ℚ
deriving DecidableEq

/-- The wavelet argument: either an already-built PointSource (reused
as-is by src_rec) or a raw data array whose shape[0] is its length. -/
inductive PWavelet where
  | pointSource (s : PSrc)
  | array (data : List ℚ)

/-- wavelet.shape[0]: the time length of the point source or the length
of the raw array. -/
def PWavelet.shape0 : PWavelet → ℕ
  | .pointSource s => s.ntime
  | .array d => d.length

/-- The wavefield argument u of src_rec/geom_expr, reduced to the data
the builder reads: the name tag of as_tuple(u)[0], the name tag of
as_tuple(u)[1][0] (elastic naming tag), and the name tags of the diagonal
components of the stress tensor as_tuple(u)[1]. -/
structure UField where
  name0 : ℕ
  elName : ℕ
  tauDiag : List ℕ

/-- Embedding of line 7 of geom_utils.py, `nt = nt or wavelet.shape[0]`:
a falsy nt (absent or zero) falls back to the wavelet length, and when
the wavelet is also absent the attribute access on None fails. -/
def resolve_nt (nt : Option ℕ) (wavelet : Option PWavelet) : Except GErr ℕ :=
  match nt with
  | some n =>
    if n ≠ 0 then .ok n
    else
      match wavelet with
      | some w => .ok w.shape0
      | none => .error .attributeError
  | none =>
    match wavelet with
    | some w => .ok w.shape0
    | none => .error .attributeError

/-- Embedding of geom_utils.src_rec (geom_utils.py lines 6-26): resolves
the time length and the naming tag, reuses a PointSource wavelet as-is,
otherwise allocates a fresh source filled with the wavelet values or
zeros, and allocates a receiver when rec_coords is given. -/
def src_rec (m : GModel) (u : UField) (src_coords rec_coords : Option (List ℚ))
    (wavelet : Option PWavelet) (nt : Option ℕ) :
    Except GErr (Option PSrc × Option PRcv) :=
  match resolve_nt nt wavelet with
  | .error e => .error e
  | .ok ntv =>
    let namef := if m.isElastic then u.elName else u.name0
    let src : Option PSrc :=
      match src_coords with
      | none => none
      | some c =>
        match wavelet with
        | some (.pointSource s) => some s
        | some (.array d) => some ⟨.srcOf namef, ntv, c, d⟩
        | none => some ⟨.srcOf namef, ntv, c, List.replicate ntv 0⟩
    let rcv : Option PRcv :=
      match rec_coords with
      | none => none
      | some c => some ⟨.rcvOf namef, ntv, c⟩
    .ok (src, rcv)

/-- The symbolic expression injected: src*dt into the stress diagonal for
elastic media, src*dt^2/m into the wavefield for acoustic/TTI media. -/
inductive InjExpr where
  | srcDt
  | srcDtSqOverM
deriving DecidableEq

/-- The read-out expression of an interpolation equation: a single
component of a (vector or tuple) field, the whole wavefield, or the
trace of the stress tensor (tagged by its first component name). -/
inductive ReadExpr where
  | comp (field : ℕ) (i : ℕ)
  | whole (field : ℕ)
  | trace (field : ℕ)
deriving DecidableEq

/-- One equation of the returned symbolic equation list: a source
injection into a field (fw records forward vs backward time slice) or a
receiver interpolation. -/
inductive GEqn where
  | injectEq (field : ℕ) (fw : Bool) (e : InjExpr)
  | interpEq (rcvName : PtName) (e : ReadExpr)
deriving DecidableEq

/-- Whether an equation is an injection. -/
def GEqn.isInject : GEqn → Bool
  | .injectEq _ _ _ => true
  | .interpEq _ _ => false

/-- Embedding of geom_utils.geom_expr (geom_utils.py lines 29-108):
builds the ordered injection-then-interpolation equation list.  Elastic
source injection adds src*dt to every diagonal entry of the stress
tensor forward slice; acoustic/TTI injection adds src*dt^2/m to the
forward or backward slice per fw.  Elastic receiver sampling demands
recv_coords (bare raise otherwise), builds particle-velocity receivers
rec_vx, rec_vz (and rec_vy in 3-D) plus the stress-trace readout on the
primary receiver, and returns immediately; non-elastic sampling reads
the first tuple component for TTI, else the wavefield itself. -/
def geom_expr (m : GModel) (u : UField) (src_coords rec_coords : Option (List ℚ))
    (wavelet : Option PWavelet) (fw : Bool) (nt : Option ℕ)
    (recv_coords : Option (List ℚ)) : Except GErr (List GEqn) :=
  match src_rec m u src_coords rec_coords wavelet nt with
  | .error e => .error e
  | .ok (src, rcv) =>
    let injEqs : List GEqn :=
      match src with
      | none => []
      | some _ =>
        if m.isElastic then
          u.tauDiag.map (fun nm => .injectEq nm true .srcDt)
        else
          [.injectEq u.name0 fw .srcDtSqOverM]
    match rcv with
    | none => .ok injEqs
    | some r =>
      if m.isElastic then
        match recv_coords with
        | none => .error .invalidInput
        | some _ =>
          let velEqs : List GEqn :=
            [.interpEq .recVX (.comp u.name0 0), .interpEq .recVZ (.comp u.name0 1)]
              ++ (if m.dim = 3 then [.interpEq .recVY (.comp u.name0 2)] else [])
          .ok (injEqs ++ velEqs ++ [.interpEq r.name (.trace u.elName)])
      else
        .ok (injEqs ++
          [.interpEq r.name (if m.isTTI then .comp u.name0 0 else .whole u.name0)])

/-! ## interface.J_adjoint dispatch, residual handling, checkpoint sizing

The three gradient strategies delegate all physics to the external
propagator layer; what interface.py itself decides is which strategy is
invoked with which arguments, how the residual is formed from the
caller-supplied buffer recin, and how the checkpoint store is sized.  We
embed exactly those decisions. -/

/-- The three mutually exclusive gradient strategies of J_adjoint. -/
inductive JStrategy where
  | checkpointing
  | freq
  | standard
deriving DecidableEq

/-- The argument record a J_adjoint dispatch passes to the selected
strategy (the arguments interface.py computes itself, interface.py lines
467-482). -/
structure JCall where
  strategy : JStrategy
  space_order : ℕ
  is_residual : Bool
  isic : Bool
  t_sub : ℕ
deriving DecidableEq

/-- Embedding of the J_adjoint dispatcher (interface.py lines 467-482):
checkpointing flag first, then non-empty frequency list, else standard.
The checkpointing branch passes the literal space_order=8; the other two
propagate the caller value; all three pass is_residual=True. -/
def J_adjoint_dispatch (space_order : ℕ) (checkpointing : Bool)
    (freq_list : List ℚ) (isic : Bool) (t_sub : ℕ) : JCall :=
  if checkpointing then
    ⟨.checkpointing, 8, true, isic, t_sub⟩
  else if freq_list.length > 0 then
    ⟨.freq, space_order, true, isic, t_sub⟩
  else
    ⟨.standard, space_order, true, isic, t_sub⟩

/-- Embedding of the residual step of J_adjoint_standard and
J_adjoint_freq (interface.py lines 573-574 and 526-527): when the input
is not already a residual, recin is overwritten in place with
rec.data - recin; otherwise it is left untouched.  Returns the new
content of the caller buffer recin. -/
def residual_update_in_place (is_residual : Bool) (recin recdata : List ℚ) : List ℚ :=
  if is_residual then recin else List.zipWith (fun a b => a - b) recdata recin

/-- Embedding of the residual step of J_adjoint_checkpointing
(interface.py lines 648-651): the fresh receiver buffer rec.data is
overwritten with recin (residual case) or rec.data - recin (observed
case); recin itself is never written.  Returns (recin, rec.data). -/
def residual_update_cp (is_residual : Bool) (recin recPrior : List ℚ) :
    List ℚ × List ℚ :=
  if is_residual then (recin, recin)
  else (recin, List.zipWith (fun a b => a - b) recPrior recin)

/-- Content of the caller buffer recin after the residual step of the
strategy a JCall selects. -/
def recin_after (c : JCall) (recin recdata : List ℚ) : List ℚ :=
  match c.strategy with
  | .checkpointing => (residual_update_cp c.is_residual recin recdata).1
  | .freq => residual_update_in_place c.is_residual recin recdata
  | .standard => residual_update_in_place c.is_residual recin recdata

/-- Embedding of the checkpoint-count sizing of J_adjoint_checkpointing
(interface.py lines 631-633): when maxmem (in MB) is supplied, overwrite
n_checkpoints with int(floor(maxmem * 10^6 / memsize)) where
memsize = cp.size * u.data.itemsize; otherwise keep the given count.
cp.size (total element count of the saved fields per step) and itemsize
(element byte width) come from the external checkpoint adapter. -/
def checkpoints_sizing (maxmem : Option ℚ) (n_checkpoints : Option ℤ)
    (cpSize itemsize : ℕ) : Option ℤ :=
  match maxmem with
  | none => n_checkpoints
  | some m => some ⌊m * 10 ^ 6 / ((cpSize : ℚ) * (itemsize : ℚ))⌋

/-! ## utils.vec and utils.tensor

A devito tensor-valued field is modelled by its shape, its number of
space dimensions, its tensor-valued capability flag, and its entry map
(total over naturals; sympy equality `==` compares shape and the entries
inside the shape, which `TField.eqv` captures).  A flattened Voigt field
indexes as self[k] = entry k 0, and self[-1] = entry (rows - 1) 0. -/

/-- Errors of vec/tensor: TypeError on a non-tensor argument, and the
two already-in-target-representation exceptions. -/
inductive TErr where
  | notTensor
  | alreadyVec
  | alreadyTensor
deriving DecidableEq

/-- A (possibly flattened) tensor-valued field. -/
structure TField (α : Type) where
  tensorValued : Bool
  ndim : ℕ
  rows : ℕ
  cols : ℕ
  entry : ℕ → ℕ → α

/-- Equality as sympy `==` observes it: same shape and same entries at
every index inside the shape. -/
def TField.eqv {α : Type} (A B : TField α) : Prop :=
  A.rows = B.rows ∧ A.cols = B.cols ∧
    ∀ i < A.rows, ∀ j < A.cols, A.entry i j = B.entry i j

/-- The fixed Voigt component order of utils.vec (utils.py lines
498-499). -/
def vecOrder (ndim : ℕ) : List (ℕ × ℕ) :=
  if ndim = 3 then [(0, 0), (1, 1), (2, 2), (1, 2), (0, 2), (0, 1)]
  else [(0, 0), (1, 1), (0, 1)]

/-- Embedding of utils.vec (utils.py lines 492-502): flattens a square
symmetric tensor field into its Voigt vector, reading the entries in the
fixed order; fails on a non-tensor argument or one already flattened. -/
def vec {α : Type} [Inhabited α] (self : TField α) : Except TErr (TField α) :=
  if self.tensorValued = false then .error .notTensor
  else if self.rows ≠ self.cols then .error .alreadyVec
  else
    let order := vecOrder self.ndim
    let comp := order.map (fun o => self.entry o.1 o.2)
    .ok ⟨true, self.ndim, order.length, 1, fun i _ => comp.getD i default⟩

/-- Embedding of utils.tensor (utils.py lines 505-525): rebuilds the
square symmetric matrix from a flattened Voigt vector (np.zeros
background, then the assignments of lines 513-522, which cover every
in-shape cell); fails on a non-tensor argument or one already square. -/
def tensor {α : Type} [Inhabited α] (self : TField α) : Except TErr (TField α) :=
  if self.tensorValued = false then .error .notTensor
  else if self.rows = self.cols then .error .alreadyTensor
  else
    .ok ⟨true, self.ndim, self.ndim, self.ndim, fun i j =>
      if i = 0 ∧ j = 0 then self.entry 0 0
      else if i = 1 ∧ j = 1 then self.entry 1 0
      else if self.ndim = 3 ∧ i = 2 ∧ j = 2 then self.entry 2 0
      else if self.ndim = 3 ∧ ((i = 2 ∧ j = 1) ∨ (i = 1 ∧ j = 2)) then self.entry 3 0
      else if self.ndim = 3 ∧ ((i = 2 ∧ j = 0) ∨ (i = 0 ∧ j = 2)) then self.entry 4 0
      else if (i = 1 ∧ j = 0) ∨ (i = 0 ∧ j = 1) then self.entry (self.rows - 1) 0
      else default⟩

/-! ## utils.weight_fun and utils.weight_srcfocus

The returned weight is a symbolic expression in the grid dimension
symbols; we model it as a real-valued function of the grid point
x : ℕ → ℝ (x i is the i-th dimension symbol).  model.spacing,
model.padsizes[i][0] and src_coords[0, i] are modelled as total maps
from the axis index. -/

/-- The slice of the model the weighting functions read: the number of
spatial dimensions, the per-axis grid spacing, and the left absorbing
pad size per axis. -/
structure WModel where
  dim : ℕ
  spacing : ℕ → ℝ
  padsize : ℕ → ℝ

/-- The per-axis source index of weight_srcfocus (utils.py line 54):
isrc[i] = padsizes[i][0] + src_coords[0, i] / spacing[i]. -/
noncomputable def isrc (m : WModel) (src : ℕ → ℝ) (i : ℕ) : ℝ :=
  m.padsize i + src i / m.spacing i

/-- The reference length h of weight_srcfocus (utils.py line 56):
np.prod(model.spacing) ** (1 / model.dim), the geometric-mean spacing. -/
noncomputable def gm_h (m : WModel) : ℝ :=
  (∏ i in Finset.range m.dim, m.spacing i) ^ ((1 : ℝ) / m.dim)

/-- Embedding of utils.weight_srcfocus (utils.py lines 39-58): with
full = True the radius sums (d_i - isrc[i])^2 over every grid dimension;
with full = False, w_dim is the one-element tuple holding the last grid
dimension and enumerate pairs it with index 0, so the single term is
(d_last - isrc[0])^2.  The weight is
sqrt(radius + (delta/h)^2) / (delta/h). -/
noncomputable def weight_srcfocus (m : WModel) (src : ℕ → ℝ) (delta : ℝ) (full : Bool)
    (x : ℕ → ℝ) : ℝ :=
  let h := gm_h m
  let radius :=
    if full then ∑ i in Finset.range m.dim, (x i - isrc m src i) ^ 2
    else (x (m.dim - 1) - isrc m src 0) ^ 2
  Real.sqrt (radius + (delta / h) ^ 2) / (delta / h)

/-- The first element of a weighting descriptor: the name compared
against the string "srcfocus" (any other name is some other string). -/
inductive WName where
  | srcfocus
  | other (k : ℕ)
deriving DecidableEq

/-- Embedding of utils.weight_fun (utils.py lines 19-36): constant 1
without a descriptor, else weight_srcfocus with delta = w_fun[1] and
full = (w_fun[0] == "srcfocus"). -/
noncomputable def weight_fun (w_fun : Option (WName × ℝ)) (m : WModel) (src : ℕ → ℝ) :
    (ℕ → ℝ) → ℝ :=
  match w_fun with
  | none => fun _ => 1
  | some (nm, d) => weight_srcfocus m src d (nm == WName.srcfocus)

/-- Modelled from the spec: the claim's reading of weight_srcfocus, in
which the distance runs over the depth axis only when full is false,
i.e. the depth coordinate is measured against the depth-axis source
index isrc[dim-1].  Kept for comparison with the code embedding
weight_srcfocus. -/
noncomputable def weight_srcfocus_claimed (m : WModel) (src : ℕ → ℝ) (delta : ℝ) (full : Bool)
    (x : ℕ → ℝ) : ℝ :=
  let h := gm_h m
  let radius :=
    if full then ∑ i in Finset.range m.dim, (x i - isrc m src i) ^ 2
    else (x (m.dim - 1) - isrc m src (m.dim - 1)) ^ 2
  Real.sqrt (radius + (delta / h) ^ 2) / (delta / h)

end JUDIGeosym

namespace JUDIGeosym

/-- C1: the spec claims `C_Matrix(model, "vp-vs-rho").inv` left-multiplied
into the stiffness matrix simplifies to the identity in 2-D and 3-D.  The
code violates this: at vp = 2, vs = 1, rho = 1 (all positive) the product
has (0,0) entry 15/8 in 2-D and 9/4 in 3-D, so the attached `.inv` is not
an inverse in either dimension. -/
theorem C1_inv_product_not_identity :
    inverse_C_vp_vs_2D 2 1 1 * C_vp_vs_rho_2D 2 1 1 ≠ 1 ∧
    inverse_C_vp_vs_3D 2 1 1 * C_vp_vs_rho_3D 2 1 1 ≠ 1 := by
  constructor
  · intro h
    have h00 := congrFun (congrFun h 0) 0
    simp [inverse_C_vp_vs_2D, C_vp_vs_rho_2D, Matrix.mul_apply,
          Fin.sum_univ_succ, Matrix.one_apply] at h00
    norm_num at h00
  · intro h
    have h00 := congrFun (congrFun h 0) 0
    simp [inverse_C_vp_vs_3D, C_vp_vs_rho_3D, Matrix.mul_apply,
          Fin.sum_univ_succ, Matrix.one_apply] at h00
    norm_num at h00

/-- C4: compute_optalpha returns 1 whenever comp_alpha is false; with
comp_alpha true it returns 0 when norm_r <= epsilon or norm_Fty <= 0 and
norm_r (norm_r - epsilon) / norm_Fty otherwise; in particular
compute_optalpha 5 10 2 true = 3/2 and compute_optalpha 1 10 2 true = 0. -/
theorem C4_compute_optalpha_spec :
    (∀ r F e : ℚ, compute_optalpha r F e false = 1) ∧
    (∀ r F e : ℚ, (r ≤ e ∨ F ≤ 0) → compute_optalpha r F e true = 0) ∧
    (∀ r F e : ℚ, e < r → 0 < F →
      compute_optalpha r F e true = r * (r - e) / F) ∧
    compute_optalpha 5 10 2 true = 3/2 ∧
    compute_optalpha 1 10 2 true = 0 := by
  refine ⟨fun r F e => rfl, fun r F e h => ?_, fun r F e h1 h2 => ?_, by
    norm_num [compute_optalpha], by norm_num [compute_optalpha]⟩
  · have : ¬ (r > e ∧ F > 0) := by
      rcases h with h | h
      · exact fun hc => absurd hc.1 (not_lt.mpr h)
      · exact fun hc => absurd hc.2 (not_lt.mpr h)
    simp [compute_optalpha, this]
  · simp [compute_optalpha, h1, h2]

/-- Witness for C4: the hypotheses of the conditional conjuncts hold at
concrete inputs and the theorem evaluates there. -/
theorem C4_compute_optalpha_spec_witness :
    compute_optalpha 1 10 2 true = 0 ∧ compute_optalpha 5 10 2 true = 5 * (5 - 2) / 10 :=
  ⟨C4_compute_optalpha_spec.2.1 1 10 2 (Or.inl (by norm_num)),
   C4_compute_optalpha_spec.2.2.1 5 10 2 (by norm_num) (by norm_num)⟩

/-- C2: on an elastic model, geom_expr with rec_coords supplied but
recv_coords absent raises the bare Exception (the error the spec calls
InvalidInput) and returns no equation list, for every source
configuration and any resolvable time length. -/
theorem C2_elastic_recv_coords_required
    (m : GModel) (u : UField) (sc : Option (List ℚ)) (rc : List ℚ)
    (w : Option PWavelet) (fw : Bool) (nt : Option ℕ) (n : ℕ)
    (hel : m.isElastic = true) (hn : resolve_nt nt w = Except.ok n) :
    geom_expr m u sc (some rc) w fw nt none = Except.error GErr.invalidInput := by
  unfold geom_expr src_rec
  rw [hn]
  simp [hel]

/-- Witness for C2: an elastic 2-D model with a receiver, nt = 3 and no
wavelet hits the InvalidInput branch. -/
theorem C2_elastic_recv_coords_required_witness :
    geom_expr ⟨true, false, 2⟩ ⟨0, 1, [2, 3]⟩ none (some [0]) none true (some 3) none =
      Except.error GErr.invalidInput :=
  C2_elastic_recv_coords_required ⟨true, false, 2⟩ ⟨0, 1, [2, 3]⟩ none [0]
    none true (some 3) 3 rfl rfl

/-- C3: on a non-elastic model (any wavelet form, any resolvable time
length), geom_expr returns exactly one injection equation when only
src_coords is given, exactly one interpolation equation when only
rec_coords is given, and exactly the two of them, injection first, when
both are given. -/
theorem C3_geom_expr_counts_order
    (m : GModel) (u : UField) (w : Option PWavelet) (fw : Bool)
    (nt : Option ℕ) (rv : Option (List ℚ)) (n : ℕ)
    (hel : m.isElastic = false) (hn : resolve_nt nt w = Except.ok n) :
    (∀ sc, geom_expr m u (some sc) none w fw nt rv =
      Except.ok [GEqn.injectEq u.name0 fw InjExpr.srcDtSqOverM]) ∧
    (∀ rc, geom_expr m u none (some rc) w fw nt rv =
      Except.ok [GEqn.interpEq (PtName.rcvOf u.name0)
        (if m.isTTI then ReadExpr.comp u.name0 0 else ReadExpr.whole u.name0)]) ∧
    (∀ sc rc, geom_expr m u (some sc) (some rc) w fw nt rv =
      Except.ok [GEqn.injectEq u.name0 fw InjExpr.srcDtSqOverM,
        GEqn.interpEq (PtName.rcvOf u.name0)
          (if m.isTTI then ReadExpr.comp u.name0 0 else ReadExpr.whole u.name0)]) := by
  refine ⟨fun sc => ?_, fun rc => ?_, fun sc rc => ?_⟩ <;>
    (unfold geom_expr src_rec
     rw [hn]
     rcases w with _ | w
     · simp [hel]
     · cases w <;> simp [hel])

/-- Witness for C3: a non-elastic 2-D model with nt = 5 and no wavelet
yields the single injection equation for a lone source. -/
theorem C3_geom_expr_counts_order_witness :
    geom_expr ⟨false, false, 2⟩ ⟨0, 1, []⟩ (some [0]) none none true (some 5) none =
      Except.ok [GEqn.injectEq 0 true InjExpr.srcDtSqOverM] :=
  (C3_geom_expr_counts_order ⟨false, false, 2⟩ ⟨0, 1, []⟩ none true (some 5)
    none 5 rfl rfl).1 [0]

/-- C10: when nt is absent or zero and no wavelet is supplied, src_rec
fails with the AttributeError from `wavelet.shape[0]` on None while
resolving the default time length (so no source or receiver point set is
produced), and geom_expr fails the same way. -/
theorem C10_nt_wavelet_required
    (m : GModel) (u : UField) (sc rc : Option (List ℚ)) (fw : Bool)
    (nt : Option ℕ) (rv : Option (List ℚ))
    (hnt : nt = none ∨ nt = some 0) :
    src_rec m u sc rc none nt = Except.error GErr.attributeError ∧
    geom_expr m u sc rc none fw nt rv = Except.error GErr.attributeError := by
  rcases hnt with h | h <;> subst h <;> exact ⟨rfl, rfl⟩

/-- Witness for C10: nt absent and wavelet absent fail immediately. -/
theorem C10_nt_wavelet_required_witness :
    src_rec ⟨false, false, 2⟩ ⟨0, 1, []⟩ (some [0]) none none none =
      Except.error GErr.attributeError :=
  (C10_nt_wavelet_required ⟨false, false, 2⟩ ⟨0, 1, []⟩ (some [0]) none true
    none none (Or.inl rfl)).1

/-- C5: when maxmem is supplied and n_checkpoints is not, the number of
checkpoints is floor(maxmem_bytes / per_step_bytes) with
maxmem_bytes = maxmem * 10^6 and per_step_bytes = (total saved-field
element count) * (element byte width). -/
theorem C5_checkpoint_count_from_memory
    (m : ℚ) (cpSize itemsize : ℕ) (h : 0 < cpSize * itemsize) :
    checkpoints_sizing (some m) none cpSize itemsize =
      some ⌊(m * 10 ^ 6) / ((cpSize * itemsize : ℕ) : ℚ)⌋ := by
  unfold checkpoints_sizing
  rw [Nat.cast_mul]

/-- Witness for C5: a 1 MB budget with 1000 saved elements of 4 bytes
each gives 250 checkpoints. -/
theorem C5_checkpoint_count_from_memory_witness :
    checkpoints_sizing (some 1) none 1000 4 =
      some ⌊((1 : ℚ) * 10 ^ 6) / ((1000 * 4 : ℕ) : ℚ)⌋ :=
  C5_checkpoint_count_from_memory 1 1000 4 (by norm_num)

/-- C8: the J_adjoint dispatcher invokes the checkpointing strategy with
spatial order fixed to the literal 8, whatever space_order the caller
passed; the frequency and standard branches propagate the caller value. -/
theorem C8_checkpointing_space_order_fixed
    (so : ℕ) (cp : Bool) (fl : List ℚ) (isic : Bool) (ts : ℕ) :
    (cp = true → (J_adjoint_dispatch so cp fl isic ts).space_order = 8 ∧
      (J_adjoint_dispatch so cp fl isic ts).strategy = JStrategy.checkpointing) ∧
    (cp = false → (J_adjoint_dispatch so cp fl isic ts).space_order = so ∧
      (J_adjoint_dispatch so cp fl isic ts).strategy ≠ JStrategy.checkpointing) := by
  constructor <;> intro h <;> subst h
  · exact ⟨rfl, rfl⟩
  · unfold J_adjoint_dispatch
    split <;> simp_all <;> split <;> simp

/-- Witness for C8: a caller passing space_order = 4 with checkpointing
on still dispatches with order 8; with checkpointing off, order 4. -/
theorem C8_checkpointing_space_order_fixed_witness :
    (J_adjoint_dispatch 4 true [] false 1).space_order = 8 ∧
    (J_adjoint_dispatch 4 false [] false 1).space_order = 4 :=
  ⟨((C8_checkpointing_space_order_fixed 4 true [] false 1).1 rfl).1,
   ((C8_checkpointing_space_order_fixed 4 false [] false 1).2 rfl).1⟩

/-- C9: every dispatch through J_adjoint passes is_residual = true, so
the caller buffer recin is left unchanged by the residual step of the
selected strategy; the standard/freq in-place overwrite can only happen
on a direct call with is_residual = false, and the checkpointing
strategy never writes recin at all. -/
theorem C9_recin_never_mutated_via_dispatch :
    (∀ (so : ℕ) (cp : Bool) (fl : List ℚ) (isic : Bool) (ts : ℕ)
       (recin recdata : List ℚ),
      recin_after (J_adjoint_dispatch so cp fl isic ts) recin recdata = recin) ∧
    (∀ (flag : Bool) (recin recdata : List ℚ),
      residual_update_in_place flag recin recdata ≠ recin → flag = false) ∧
    (∀ (flag : Bool) (recin recdata : List ℚ),
      (residual_update_cp flag recin recdata).1 = recin) := by
  refine ⟨fun so cp fl isic ts recin recdata => ?_, fun flag recin recdata h => ?_,
    fun flag recin recdata => ?_⟩
  · unfold J_adjoint_dispatch
    split
    · rfl
    · split <;> rfl
  · cases flag
    · rfl
    · exact absurd rfl h
  · cases flag <;> rfl

/-- Witness for C9: a direct standard-strategy call that does overwrite
recin indeed carries is_residual = false. -/
theorem C9_recin_never_mutated_via_dispatch_witness :
    residual_update_in_place false [1] [0] ≠ [1] ∧ false = false :=
  ⟨by norm_num [residual_update_in_place],
   C9_recin_never_mutated_via_dispatch.2.1 false [1] [0]
     (by norm_num [residual_update_in_place])⟩

/-- C6: vec and tensor are mutually inverse on admissible inputs: a
symmetric square tensor field (2-D or 3-D, shape matching its space
dimensions) survives tensor-after-vec, a flattened Voigt vector (3
components in 2-D, 6 in 3-D) survives vec-after-tensor with the fixed
component order, and each operation fails on an argument already in its
target representation. -/
theorem C6_vec_tensor_mutually_inverse (α : Type) [Inhabited α] :
    (∀ M : TField α, M.tensorValued = true → M.rows = M.ndim → M.cols = M.ndim →
      (M.ndim = 2 ∨ M.ndim = 3) →
      (∀ i < M.ndim, ∀ j < M.ndim, M.entry i j = M.entry j i) →
      ∃ V T, vec M = Except.ok V ∧ tensor V = Except.ok T ∧ TField.eqv T M) ∧
    (∀ v : TField α, v.tensorValued = true → v.cols = 1 →
      ((v.ndim = 2 ∧ v.rows = 3) ∨ (v.ndim = 3 ∧ v.rows = 6)) →
      ∃ T F, tensor v = Except.ok T ∧ vec T = Except.ok F ∧ TField.eqv F v) ∧
    (∀ v : TField α, v.tensorValued = true → v.rows ≠ v.cols →
      vec v = Except.error TErr.alreadyVec) ∧
    (∀ M : TField α, M.tensorValued = true → M.rows = M.cols →
      tensor M = Except.error TErr.alreadyTensor) := by
  refine ⟨?_, ?_, ?_, ?_⟩
  · rintro ⟨tv, nd, r, c, e⟩ htv hr hc hdim hsym
    simp only at htv hr hc hdim hsym
    subst htv
    rcases hdim with h | h <;> subst h <;> subst hr <;> subst hc
    · refine ⟨_, _, rfl, rfl, rfl, rfl, ?_⟩
      intro i hi j hj
      have hi2 : i < 2 := hi
      have hj2 : j < 2 := hj
      interval_cases i <;> interval_cases j <;>
        first
          | rfl
          | exact hsym 0 (by omega) 1 (by omega)
    · refine ⟨_, _, rfl, rfl, rfl, rfl, ?_⟩
      intro i hi j hj
      have hi2 : i < 3 := hi
      have hj2 : j < 3 := hj
      interval_cases i <;> interval_cases j <;>
        first
          | rfl
          | exact hsym 0 (by omega) 1 (by omega)
          | exact hsym 0 (by omega) 2 (by omega)
          | exact hsym 1 (by omega) 2 (by omega)
  · rintro ⟨tv, nd, r, c, e⟩ htv hc hdim
    simp only at htv hc hdim
    subst htv
    subst hc
    rcases hdim with ⟨h1, h2⟩ | ⟨h1, h2⟩ <;> subst h1 <;> subst h2
    · refine ⟨_, _, rfl, rfl, rfl, rfl, ?_⟩
      intro i hi j hj
      have hi2 : i < 3 := hi
      have hj2 : j < 1 := hj
      interval_cases i <;> interval_cases j <;> rfl
    · refine ⟨_, _, rfl, rfl, rfl, rfl, ?_⟩
      intro i hi j hj
      have hi2 : i < 6 := hi
      have hj2 : j < 1 := hj
      interval_cases i <;> interval_cases j <;> rfl
  · rintro ⟨tv, nd, r, c, e⟩ htv hne
    simp only at htv hne
    subst htv
    simp [vec, hne]
  · rintro ⟨tv, nd, r, c, e⟩ htv heq
    simp only at htv heq
    subst htv
    simp [tensor, heq]

/-- Witness for C6: a concrete symmetric 2x2 integer tensor field and a
concrete 3-component Voigt vector satisfy the hypotheses, and the
operations fail on swapped representations. -/
theorem C6_vec_tensor_mutually_inverse_witness :
    (∃ V T, vec (⟨true, 2, 2, 2, fun i j => (i + j : ℤ)⟩ : TField ℤ) = Except.ok V ∧
      tensor V = Except.ok T ∧
      TField.eqv T ⟨true, 2, 2, 2, fun i j => (i + j : ℤ)⟩) ∧
    (∃ T F, tensor (⟨true, 2, 3, 1, fun i _ => (i : ℤ)⟩ : TField ℤ) = Except.ok T ∧
      vec T = Except.ok F ∧ TField.eqv F ⟨true, 2, 3, 1, fun i _ => (i : ℤ)⟩) ∧
    vec (⟨true, 2, 3, 1, fun i _ => (i : ℤ)⟩ : TField ℤ) =
      Except.error TErr.alreadyVec ∧
    tensor (⟨true, 2, 2, 2, fun i j => (i + j : ℤ)⟩ : TField ℤ) =
      Except.error TErr.alreadyTensor :=
  ⟨(C6_vec_tensor_mutually_inverse ℤ).1 ⟨true, 2, 2, 2, fun i j => (i + j : ℤ)⟩
      rfl rfl rfl (Or.inl rfl) (by decide),
   (C6_vec_tensor_mutually_inverse ℤ).2.1 ⟨true, 2, 3, 1, fun i _ => (i : ℤ)⟩
      rfl rfl (Or.inl ⟨rfl, rfl⟩),
   (C6_vec_tensor_mutually_inverse ℤ).2.2.1 ⟨true, 2, 3, 1, fun i _ => (i : ℤ)⟩
      rfl (by decide),
   (C6_vec_tensor_mutually_inverse ℤ).2.2.2 ⟨true, 2, 2, 2, fun i j => (i + j : ℤ)⟩
      rfl rfl⟩

/-- C7 counterexample: the claim reads the depth-only weight as measuring
the depth axis of both the grid point and the source; the code pairs the
depth dimension symbol with the first-axis source index isrc[0].  On a
2-D model with unit spacing, no pad, and source coordinates (3, 7), the
code weight at the origin uses distance 3 where the claim says 7, so the
two expressions differ. -/
theorem C7_weight_depth_counterexample :
    weight_srcfocus ⟨2, fun _ => 1, fun _ => 0⟩ (fun i => if i = 0 then 3 else 7)
        (1 / 100) false (fun _ => 0) ≠
      weight_srcfocus_claimed ⟨2, fun _ => 1, fun _ => 0⟩ (fun i => if i = 0 then 3 else 7)
        (1 / 100) false (fun _ => 0) := by
  have hh : gm_h ⟨2, fun _ => 1, fun _ => 0⟩ = 1 := by
    unfold gm_h
    norm_num
  unfold weight_srcfocus weight_srcfocus_claimed
  rw [hh]
  unfold isrc
  norm_num
  intro hEq
  have h1 : (0 : ℝ) < 1 / 100 := by norm_num
  have h2 : (0 : ℝ) < Real.sqrt 10000 := Real.sqrt_pos.mpr (by norm_num)
  have hlt : Real.sqrt (90001 : ℝ) < Real.sqrt 490001 :=
    Real.sqrt_lt_sqrt (by norm_num) (by norm_num)
  exact absurd hEq
    (ne_of_lt ((div_lt_div_iff_of_pos_right h1).mpr
      ((div_lt_div_iff_of_pos_right h2).mpr hlt)))

/-- C7 amended: weight_fun returns the constant 1 without a descriptor
and otherwise delegates to weight_srcfocus with full = (name ==
"srcfocus"); weight_srcfocus with full computes
sqrt(sum_i (x_i - (pad_i + src_i/spacing_i))^2 + (d/h)^2) / (d/h) over
all spatial axes, and without full the single squared distance pairs the
depth dimension symbol with the first-axis source index isrc[0]; h is
the geometric-mean spacing prod(spacing)^(1/ndim). -/
theorem C7_weight_fun_spec_amended :
    (∀ (m : WModel) (src x : ℕ → ℝ), weight_fun none m src x = 1) ∧
    (∀ (m : WModel) (src : ℕ → ℝ) (nm : WName) (d : ℝ),
      weight_fun (some (nm, d)) m src =
        weight_srcfocus m src d (nm == WName.srcfocus)) ∧
    (∀ (m : WModel) (src : ℕ → ℝ) (d : ℝ) (x : ℕ → ℝ),
      weight_srcfocus m src d true x =
        Real.sqrt ((∑ i in Finset.range m.dim,
            (x i - (m.padsize i + src i / m.spacing i)) ^ 2) + (d / gm_h m) ^ 2)
          / (d / gm_h m)) ∧
    (∀ (m : WModel) (src : ℕ → ℝ) (d : ℝ) (x : ℕ → ℝ),
      weight_srcfocus m src d false x =
        Real.sqrt ((x (m.dim - 1) - (m.padsize 0 + src 0 / m.spacing 0)) ^ 2
            + (d / gm_h m) ^ 2) / (d / gm_h m)) ∧
    (∀ m : WModel,
      gm_h m = (∏ i in Finset.range m.dim, m.spacing i) ^ ((1 : ℝ) / m.dim)) :=
  ⟨fun m src x => rfl, fun m src nm d => rfl, fun m src d x => rfl,
   fun m src d x => rfl, fun m => rfl⟩

end JUDIGeosym
